import Mathlib

/-!
Shallow embedding of the query-execution and chunk-lifecycle subsystem of
the influxdb repository, covering:

- `influxdb3_server/src/query_executor/mod.rs`: `QueryExecutorImpl::query`,
  `QueryDatabase::namespace`, `show_databases`, `split_database_name`,
  `QueryTable::chunks` and `QueryTable::scan`;
- `server/src/db/lifecycle/load.rs`: `load_chunk`.

Runtime-only handles of the Rust code (executors, object stores, tracing
spans, metric registries) are dropped; fallible external collaborators
(planner, stream establishment, write buffer, compaction) appear as explicit
outcome parameters so that every control path of the source is represented.
Side effects that the claims speak about (query-log token transitions,
telemetry counter updates, semaphore acquisition) are recorded as an ordered
event trace.
-/

/-- One database entry of the catalog: the fields of `DatabaseSchema` the
query executor reads (`name`, `id`, `deleted`). -/
structure DatabaseSchema where
  name : String
  id : Nat
  deleted : Bool
  deriving DecidableEq

/-- The catalog, as the list of database schemas it holds
(`Catalog::list_db_schema` returns exactly this list). -/
structure Catalog where
  dbs : List DatabaseSchema
  deriving DecidableEq

/-- Modelled from the spec: `Catalog::db_schema(name)` (the catalog crate is
not under `src/`). Spec: the catalog yields the current schema for a name,
and `query` must "fail DatabaseNotFound if absent or hidden-deleted", so a
deleted database is not returned. -/
def Catalog.db_schema (c : Catalog) (name : String) : Option DatabaseSchema :=
  c.dbs.find? (fun db => db.name == name && !db.deleted)

/-- `Catalog::list_db_schema`: all databases, deleted ones included. -/
def Catalog.list_db_schema (c : Catalog) : List DatabaseSchema :=
  c.dbs

/-- The variants of `QueryExecutorError` the embedded code constructs.
Error payloads of the external planner / DataFusion are kept as strings. -/
inductive QueryExecutorError where
  | databaseNotFound (db_name : String)
  | queryPlanning (e : String)
  | executeStream (e : String)
  | databasesToRecordBatch (e : String)
  deriving DecidableEq

/-- `DataFusionError` as produced by `QueryDatabase::namespace`: an external
error wrapping a `QueryExecutorError`. -/
inductive DataFusionError where
  | external (e : QueryExecutorError)
  deriving DecidableEq

/-- The database adapter handed out by `namespace`: it captures the resolved
schema snapshot (the runtime handles it also carries are dropped). -/
structure Database where
  db_schema : DatabaseSchema
  deriving DecidableEq

/-- `QueryDatabase::namespace` for `QueryExecutorImpl` (mod.rs lines
340-362): look the name up in the catalog; absence becomes a
`DataFusionError` wrapping `DatabaseNotFound`; presence becomes
`Ok(Some(Database::new(..)))`. -/
def QueryExecutorImpl.namespaceLookup (c : Catalog) (name : String) :
    Except DataFusionError (Option Database) :=
  match c.db_schema name with
  | none => .error (.external (.databaseNotFound name))
  | some db_schema => .ok (some { db_schema })

/-- Observable side effects of one `query` call, in program order. -/
inductive QueryEvent where
  | tokenReceived
  | tokenPlanned
  | tokenPermitted
  | tokenSuccess
  | tokenFailed
  | telemetryUpdateNumQueries
  | semaphoreAcquire
  | executeStream
  deriving DecidableEq

/-- `QueryDatabase::acquire_semaphore` (mod.rs lines 364-369): the only
operation that acquires from `query_execution_semaphore`; its observable
effect is a `semaphoreAcquire` event. `query` never invokes it. -/
def QueryExecutorImpl.acquire_semaphore : List QueryEvent :=
  [QueryEvent.semaphoreAcquire]

deriving instance DecidableEq for Except

/-- Result and event trace of one `query` call. -/
structure QueryRun where
  result : Except QueryExecutorError Unit
  events : List QueryEvent
  deriving DecidableEq

/-- `QueryExecutor::query` for `QueryExecutorImpl` (mod.rs lines 116-185).
The planner outcome (`planner.sql`/`planner.influxql` run via `ctx.run`) and
the stream establishment outcome (`ctx.execute_stream`) are external and
appear as parameters. Control flow, in source order:
resolve the namespace (both the `map_err` and the `ok_or_else` branch yield
`DatabaseNotFound`); open the query-log token (`record_query`, state
Received); dispatch planning; on planning failure `token.fail()` and return
`QueryPlanning`; on success `token.planned(..)`, then `token.permit()`
(the `TODO: Enforce concurrency limit here` point — no semaphore is
acquired), then `telemetry_store.update_num_queries()`; finally
`execute_stream`: success gives `token.success()`, failure gives
`token.fail()` and `ExecuteStream`. -/
def QueryExecutorImpl.query (c : Catalog) (database : String)
    (planResult : Except String Unit) (execResult : Except String Unit) :
    QueryRun :=
  match QueryExecutorImpl.namespaceLookup c database with
  | .error _ => { result := .error (.databaseNotFound database), events := [] }
  | .ok none => { result := .error (.databaseNotFound database), events := [] }
  | .ok (some _db) =>
    match planResult with
    | .error e =>
        { result := .error (.queryPlanning e)
          events := [.tokenReceived, .tokenFailed] }
    | .ok _ =>
        match execResult with
        | .ok _ =>
            { result := .ok ()
              events := [.tokenReceived, .tokenPlanned, .tokenPermitted,
                .telemetryUpdateNumQueries, .executeStream, .tokenSuccess] }
        | .error e =>
            { result := .error (.executeStream e)
              events := [.tokenReceived, .tokenPlanned, .tokenPermitted,
                .telemetryUpdateNumQueries, .executeStream, .tokenFailed] }

/-- Number of terminal query-log transitions (Success or Failed) in a trace. -/
def countTerminal (events : List QueryEvent) : Nat :=
  events.countP (fun e => e == QueryEvent.tokenSuccess || e == QueryEvent.tokenFailed)

/-- Number of telemetry-counter increments in a trace. -/
def countTelemetry (events : List QueryEvent) : Nat :=
  events.countP (fun e => e == QueryEvent.telemetryUpdateNumQueries)

/-- A one-database catalog used to instantiate theorems at concrete inputs. -/
def catalogEx : Catalog :=
  { dbs := [{ name := "test_db", id := 0, deleted := false }] }

/-- Claim C1: every `query` call that reaches the planning stage (the
database resolved, so a query-log token was opened) performs exactly one
terminal token transition — Success or Failed, never both, never neither —
on each control path (planning error, stream-establishment error, success). -/
theorem query_reaching_planning_has_exactly_one_terminal
    (c : Catalog) (database : String)
    (planResult execResult : Except String Unit) (s : DatabaseSchema)
    (h : c.db_schema database = some s) :
    countTerminal (QueryExecutorImpl.query c database planResult execResult).events = 1 := by
  cases planResult <;> cases execResult <;>
    simp [QueryExecutorImpl.query, QueryExecutorImpl.namespaceLookup, h, countTerminal]

/-- Witness for C1 at a concrete catalog and successful plan/stream. -/
theorem query_reaching_planning_has_exactly_one_terminal_witness :
    countTerminal (QueryExecutorImpl.query catalogEx "test_db" (.ok ()) (.ok ())).events = 1 :=
  query_reaching_planning_has_exactly_one_terminal catalogEx "test_db" (.ok ()) (.ok ())
    { name := "test_db", id := 0, deleted := false } (by decide)

/-- Claim C2 counterexample: a run in which the database resolves (planning
is dispatched) but planning fails performs zero telemetry-counter
increments, contradicting "incremented even when planning subsequently
fails". -/
theorem query_planning_failure_skips_counter_cex :
    catalogEx.db_schema "test_db" = some { name := "test_db", id := 0, deleted := false } ∧
    countTelemetry
      (QueryExecutorImpl.query catalogEx "test_db" (.error "plan failed") (.ok ())).events = 0 := by
  decide

/-- Claim C2 (amended): the query counter is incremented exactly once when
the database resolves and planning succeeds (regardless of the stream
outcome), and not at all otherwise — in particular not when planning fails. -/
theorem query_counter_incremented_iff_planning_ok
    (c : Catalog) (database : String)
    (planResult execResult : Except String Unit) :
    countTelemetry (QueryExecutorImpl.query c database planResult execResult).events =
      match c.db_schema database, planResult with
      | some _, .ok _ => 1
      | _, _ => 0 := by
  cases h : c.db_schema database <;> cases planResult <;> cases execResult <;>
    simp [QueryExecutorImpl.query, QueryExecutorImpl.namespaceLookup, h, countTelemetry]

/-- Claim C3 counterexample: a concrete `query` run in which planning
succeeds (the run even succeeds end to end) contains no acquisition from
`query_execution_semaphore`, contradicting "a permit is acquired ... before
the plan is executed". -/
theorem query_no_semaphore_acquire_cex :
    (QueryExecutorImpl.query catalogEx "test_db" (.ok ()) (.ok ())).result = .ok () ∧
    QueryEvent.semaphoreAcquire ∉
      (QueryExecutorImpl.query catalogEx "test_db" (.ok ()) (.ok ())).events := by
  decide

/-- Claim C3 (amended): when planning succeeds the token transitions to
Permitted before the plan is executed, but no permit is acquired from
`query_execution_semaphore` inside `query` (acquisition is left as a TODO;
`acquire_semaphore` exists on the `QueryDatabase` interface but `query`
never calls it). -/
theorem query_permit_transition_without_semaphore
    (c : Catalog) (database : String) (execResult : Except String Unit)
    (s : DatabaseSchema) (h : c.db_schema database = some s) :
    QueryEvent.semaphoreAcquire ∉
      (QueryExecutorImpl.query c database (.ok ()) execResult).events ∧
    ∃ rest,
      (QueryExecutorImpl.query c database (.ok ()) execResult).events =
        [QueryEvent.tokenReceived, QueryEvent.tokenPlanned, QueryEvent.tokenPermitted,
          QueryEvent.telemetryUpdateNumQueries, QueryEvent.executeStream] ++ rest := by
  cases execResult <;>
    simp [QueryExecutorImpl.query, QueryExecutorImpl.namespaceLookup, h]

/-- Witness for the amended C3 at a concrete catalog. -/
theorem query_permit_transition_without_semaphore_witness :
    QueryEvent.semaphoreAcquire ∉
      (QueryExecutorImpl.query catalogEx "test_db" (.ok ()) (.ok ())).events ∧
    ∃ rest,
      (QueryExecutorImpl.query catalogEx "test_db" (.ok ()) (.ok ())).events =
        [QueryEvent.tokenReceived, QueryEvent.tokenPlanned, QueryEvent.tokenPermitted,
          QueryEvent.telemetryUpdateNumQueries, QueryEvent.executeStream] ++ rest :=
  query_permit_transition_without_semaphore catalogEx "test_db" (.ok ())
    { name := "test_db", id := 0, deleted := false } (by decide)

/-- Claim C4: for a database name with no non-deleted entry in the catalog,
`query` returns `DatabaseNotFound` carrying that name, and no query-log
token is created (the event trace is empty). -/
theorem query_database_not_found
    (c : Catalog) (database : String) (planResult execResult : Except String Unit)
    (h : ∀ db ∈ c.dbs, db.name = database → db.deleted = true) :
    (QueryExecutorImpl.query c database planResult execResult).result =
      .error (.databaseNotFound database) ∧
    (QueryExecutorImpl.query c database planResult execResult).events = [] := by
  have hnone : c.db_schema database = none := by
    rw [Catalog.db_schema, List.find?_eq_none]
    intro db hmem
    by_cases hname : db.name = database
    · simp [hname, h db hmem hname]
    · simp [hname]
  simp [QueryExecutorImpl.query, QueryExecutorImpl.namespaceLookup, hnone]

/-- Witness for C4: a catalog whose only entry with the requested name is
deleted. -/
theorem query_database_not_found_witness :
    (QueryExecutorImpl.query { dbs := [{ name := "gone", id := 1, deleted := true }] }
      "gone" (.ok ()) (.ok ())).result = .error (.databaseNotFound "gone") ∧
    (QueryExecutorImpl.query { dbs := [{ name := "gone", id := 1, deleted := true }] }
      "gone" (.ok ()) (.ok ())).events = [] :=
  query_database_not_found { dbs := [{ name := "gone", id := 1, deleted := true }] }
    "gone" (.ok ()) (.ok ()) (by decide)

/-- Claim C10: `QueryDatabase::namespace` never returns `Ok(None)`: it is
`Ok(Some(adapter))` exactly when the catalog has a schema for the name, and
otherwise a `DataFusionError` wrapping `DatabaseNotFound` for that name. -/
theorem namespaceLookup_never_ok_none (c : Catalog) (name : String) :
    QueryExecutorImpl.namespaceLookup c name ≠ .ok none ∧
    QueryExecutorImpl.namespaceLookup c name =
      (match c.db_schema name with
       | some s => .ok (some { db_schema := s })
       | none => .error (.external (.databaseNotFound name))) := by
  cases h : c.db_schema name <;>
    simp [QueryExecutorImpl.namespaceLookup, h]

/-- Filter expressions handed to `scan`/`chunks`; their structure is opaque
to the embedded code, which only forwards them. -/
abbrev Expr := String

/-- A chunk handle returned by the write buffer. -/
abbrev QueryChunk := Nat

/-- The argument tuple `QueryTable::chunks` passes to
`WriteBuffer::get_table_chunks` (mod.rs lines 569-575): database name, table
name, filters and projection — the limit is not part of the request. -/
structure GetTableChunksRequest where
  db_name : String
  table_name : String
  filters : List Expr
  projection : Option (List Nat)
  deriving DecidableEq

/-- `QueryTable`: the fields `chunks`/`scan` read (the write buffer itself
is passed as the `get_table_chunks` function argument). -/
structure QueryTable where
  db_schema : DatabaseSchema
  table_name : String
  deriving DecidableEq

/-- `QueryTable::chunks` (mod.rs lines 562-577): forward to
`write_buffer.get_table_chunks` with the table's database name, the table
name, the filters and the projection; the `_limit` parameter is unused. -/
def QueryTable.chunks (t : QueryTable)
    (get_table_chunks : GetTableChunksRequest → Except String (List QueryChunk))
    (projection : Option (List Nat)) (filters : List Expr)
    (_limit : Option Nat) : Except String (List QueryChunk) :=
  get_table_chunks
    { db_name := t.db_schema.name, table_name := t.table_name
      filters := filters, projection := projection }

/-- A `ProviderBuilder` provider and an execution plan, opaque here. -/
abbrev Provider := Nat

/-- An execution plan produced by `provider.scan`. -/
abbrev ExecPlan := Nat

/-- Outcome of `TableProvider::scan`: a plan, a typed `DataFusionError`
returned to the caller, or a process panic. -/
inductive ScanOutcome where
  | ok (plan : ExecPlan)
  | error (e : String)
  | panicked (msg : String)
  deriving DecidableEq

/-- `TableProvider::scan` for `QueryTable` (mod.rs lines 600-627): fetch the
chunk set via `Self::chunks` (propagating its error with the `?`), fold the
chunks into a `ProviderBuilder` and build it — a build error is a
`panic!("unexpected error: ..")`, not a returned error — then delegate to
`provider.scan(ctx, projection, filters, limit)`. `build` abstracts
`ProviderBuilder::build` on the accumulated chunk list and `provider_scan`
abstracts the built provider's scan. -/
def QueryTable.scan (t : QueryTable)
    (get_table_chunks : GetTableChunksRequest → Except String (List QueryChunk))
    (build : List QueryChunk → Except String Provider)
    (provider_scan : Provider → Option (List Nat) → List Expr → Option Nat → ScanOutcome)
    (projection : Option (List Nat)) (filters : List Expr)
    (limit : Option Nat) : ScanOutcome :=
  match t.chunks get_table_chunks projection filters limit with
  | .error e => .error e
  | .ok chunks =>
    match build chunks with
    | .error e => .panicked ("unexpected error: " ++ e)
    | .ok provider => provider_scan provider projection filters limit

/-- Claim C9: the chunk set requested from the chunk-provider boundary
depends only on projection and filters, never on the limit: `chunks` issues
the same `get_table_chunks` request — built from the database name, table
name, filters and projection — for any two limit values, so it yields the
same chunk set; the limit is only forwarded to the later plan construction. -/
theorem chunks_independent_of_limit (t : QueryTable)
    (get_table_chunks : GetTableChunksRequest → Except String (List QueryChunk))
    (projection : Option (List Nat)) (filters : List Expr)
    (limit1 limit2 : Option Nat) :
    t.chunks get_table_chunks projection filters limit1 =
      t.chunks get_table_chunks projection filters limit2 ∧
    t.chunks get_table_chunks projection filters limit1 =
      get_table_chunks
        { db_name := t.db_schema.name, table_name := t.table_name
          filters := filters, projection := projection } :=
  ⟨rfl, rfl⟩

/-- Claim C8: when the chunk set is obtained but `builder.build()` fails,
`scan` ends in a process panic carrying the build error, never in a typed
query error returned to the caller. -/
theorem scan_panics_on_build_failure (t : QueryTable)
    (get_table_chunks : GetTableChunksRequest → Except String (List QueryChunk))
    (build : List QueryChunk → Except String Provider)
    (provider_scan : Provider → Option (List Nat) → List Expr → Option Nat → ScanOutcome)
    (projection : Option (List Nat)) (filters : List Expr) (limit : Option Nat)
    (chunks : List QueryChunk) (e : String)
    (hc : t.chunks get_table_chunks projection filters limit = .ok chunks)
    (hb : build chunks = .error e) :
    t.scan get_table_chunks build provider_scan projection filters limit =
      .panicked ("unexpected error: " ++ e) ∧
    ∀ msg, t.scan get_table_chunks build provider_scan projection filters limit ≠
      .error msg := by
  simp [QueryTable.scan, hc, hb]

/-- A concrete `QueryTable` used to instantiate theorems. -/
def queryTableEx : QueryTable :=
  { db_schema := { name := "test_db", id := 0, deleted := false }
    table_name := "cpu" }

/-- Witness for C8 at a concrete table whose chunk set fails to build. -/
theorem scan_panics_on_build_failure_witness :
    QueryTable.scan queryTableEx
      (fun _ => .ok [0, 1]) (fun _ => .error "incompatible schemas")
      (fun p _ _ _ => .ok p) none [] none =
      .panicked ("unexpected error: " ++ "incompatible schemas") ∧
    ∀ msg, QueryTable.scan queryTableEx
      (fun _ => .ok [0, 1]) (fun _ => .error "incompatible schemas")
      (fun p _ _ _ => .ok p) none [] none ≠ .error msg :=
  scan_panics_on_build_failure _ _ _ _ none [] none [0, 1] "incompatible schemas"
    rfl rfl

/-- The address of a chunk (`ChunkAddr`): database, table, partition key,
chunk id. -/
structure ChunkAddr where
  db_name : String
  table_name : String
  partition_key : String
  chunk_id : Nat
  deriving DecidableEq

/-- The four storage tiers of a chunk (`ChunkStorage`). -/
inductive ChunkStorage where
  | Open
  | ReadBufferOnly
  | ReadBufferAndObjectStore
  | ObjectStoreOnly
  deriving DecidableEq

/-- The part of a `CatalogChunk` the loader transitions: its storage tier
and whether a load into the read buffer is in flight (the Loading
sub-state). -/
structure CatalogChunk where
  storage : ChunkStorage
  loading_to_read_buffer : Bool
  deriving DecidableEq

/-- A read-buffer chunk produced by `collect_rub`, opaque here. -/
abbrev RBChunk := Nat

/-- The errors of the lifecycle loader the claims mention:
`CannotLoadEmptyChunk`, a chunk-state error from a rejected transition, and
any error of the reorg plan / execution / collection pipeline. -/
inductive LoadError where
  | cannotLoadEmptyChunk (addr : ChunkAddr)
  | chunkState (msg : String)
  | reorg (msg : String)
  deriving DecidableEq

/-- Modelled from the spec: `CatalogChunk::set_loading_to_read_buffer` (the
catalog-chunk state machine is not under `src/`). Spec: the
ObjectStoreOnly → ReadBufferAndObjectStore promotion "passes through an
intermediate Loading sub-state" in which "the object-store copy remains
queryable" and "a second concurrent load is rejected"; so the transition
succeeds exactly on an ObjectStoreOnly chunk with no load in flight, keeps
the tier at ObjectStoreOnly and marks the load in flight. -/
def set_loading_to_read_buffer (chunk : CatalogChunk) : Except LoadError CatalogChunk :=
  if chunk.storage = ChunkStorage.ObjectStoreOnly ∧ chunk.loading_to_read_buffer = false then
    .ok { storage := ChunkStorage.ObjectStoreOnly, loading_to_read_buffer := true }
  else
    .error (.chunkState "unexpected chunk state for loading to read buffer")

/-- Modelled from the spec: `CatalogChunk::set_loaded_to_read_buffer` (not
under `src/`). Spec: "a non-empty result re-acquires the write lock and
commits, transitioning state to ReadBufferAndObjectStore". -/
def set_loaded_to_read_buffer (_rb_chunk : RBChunk) (_chunk : CatalogChunk) :
    Except LoadError CatalogChunk :=
  .ok { storage := ChunkStorage.ReadBufferAndObjectStore, loading_to_read_buffer := false }

/-- Outcome of running the future returned by `load_chunk` to completion:
the future's result and the chunk's final state. -/
structure LoadRun where
  future_result : Except LoadError Unit
  final_chunk : CatalogChunk
  deriving DecidableEq

/-- `load_chunk` (load.rs lines 21-75) with the returned future run to
completion. The caller holds the chunk's exclusive write guard. Steps:
register the job; `set_loading_to_read_buffer` (failure propagates via the
`?`); drop the lock; then, in the future, compute the sort key, build and
execute the single-chunk compaction plan and `collect_rub` the stream —
this whole pipeline is the external `compaction_result` parameter, either
an error (any of the `?`s) or `Option` of a read-buffer chunk. An empty
result fails the future with `CannotLoadEmptyChunk { addr }` and the chunk
state is not touched; a non-empty result re-acquires the write lock and
commits with `set_loaded_to_read_buffer`. -/
def load_chunk (addr : ChunkAddr) (chunk : CatalogChunk)
    (compaction_result : Except LoadError (Option RBChunk)) :
    Except LoadError LoadRun :=
  match set_loading_to_read_buffer chunk with
  | .error e => .error e
  | .ok chunk2 =>
    match compaction_result with
    | .error e => .ok { future_result := .error e, final_chunk := chunk2 }
    | .ok none =>
        .ok { future_result := .error (.cannotLoadEmptyChunk addr), final_chunk := chunk2 }
    | .ok (some rb_chunk) =>
        match set_loaded_to_read_buffer rb_chunk chunk2 with
        | .error e => .ok { future_result := .error e, final_chunk := chunk2 }
        | .ok chunk3 => .ok { future_result := .ok (), final_chunk := chunk3 }

/-- Claim C5: for a chunk eligible for loading (ObjectStoreOnly, no load in
flight), an empty compaction result makes the future fail with
`CannotLoadEmptyChunk` for the chunk's address while the storage tier stays
ObjectStoreOnly (never ReadBufferAndObjectStore, nothing discarded), and a
non-empty result commits, leaving the chunk ReadBufferAndObjectStore. -/
theorem load_chunk_empty_fails_nonempty_commits (addr : ChunkAddr) (chunk : CatalogChunk)
    (h1 : chunk.storage = ChunkStorage.ObjectStoreOnly)
    (h2 : chunk.loading_to_read_buffer = false) :
    load_chunk addr chunk (.ok none) =
      .ok { future_result := .error (.cannotLoadEmptyChunk addr)
            final_chunk := { storage := ChunkStorage.ObjectStoreOnly
                             loading_to_read_buffer := true } } ∧
    ∀ rb_chunk, load_chunk addr chunk (.ok (some rb_chunk)) =
      .ok { future_result := .ok ()
            final_chunk := { storage := ChunkStorage.ReadBufferAndObjectStore
                             loading_to_read_buffer := false } } := by
  constructor <;>
    simp [load_chunk, set_loading_to_read_buffer, set_loaded_to_read_buffer, h1, h2]

/-- Witness for C5 at a concrete address and chunk. -/
theorem load_chunk_empty_fails_nonempty_commits_witness :
    load_chunk { db_name := "test_db", table_name := "cpu"
                 partition_key := "1970-01-01T00", chunk_id := 0 }
      { storage := ChunkStorage.ObjectStoreOnly, loading_to_read_buffer := false }
      (.ok none) =
      .ok { future_result := .error (.cannotLoadEmptyChunk
              { db_name := "test_db", table_name := "cpu"
                partition_key := "1970-01-01T00", chunk_id := 0 })
            final_chunk := { storage := ChunkStorage.ObjectStoreOnly
                             loading_to_read_buffer := true } } ∧
    ∀ rb_chunk, load_chunk { db_name := "test_db", table_name := "cpu"
                             partition_key := "1970-01-01T00", chunk_id := 0 }
      { storage := ChunkStorage.ObjectStoreOnly, loading_to_read_buffer := false }
      (.ok (some rb_chunk)) =
      .ok { future_result := .ok ()
            final_chunk := { storage := ChunkStorage.ReadBufferAndObjectStore
                             loading_to_read_buffer := false } } :=
  load_chunk_empty_fails_nonempty_commits _ _ rfl rfl

/-- Lexicographic comparison of character lists by code point: Rust's
`str::cmp` (byte-lexicographic on UTF-8, which coincides with code-point
order). -/
def charListCmp : List Char → List Char → Ordering
  | [], [] => .eq
  | [], _ :: _ => .lt
  | _ :: _, [] => .gt
  | a :: s, b :: t =>
    if a.toNat < b.toNat then .lt
    else if b.toNat < a.toNat then .gt
    else charListCmp s t

/-- If two lists compare equal, they compare identically against any third
list on the left. -/
theorem charListCmp_eq_left : ∀ {s t u : List Char},
    charListCmp s t = Ordering.eq → charListCmp s u = charListCmp t u := by
  intro s
  induction s with
  | nil =>
    intro t u h
    cases t with
    | nil => rfl
    | cons b t2 => simp [charListCmp] at h
  | cons a s2 ih =>
    intro t u h
    cases t with
    | nil => simp [charListCmp] at h
    | cons b t2 =>
      simp only [charListCmp] at h
      split_ifs at h with h1 h2
      have hab : a.toNat = b.toNat := by omega
      cases u with
      | nil => rfl
      | cons c u2 =>
        simp only [charListCmp, hab]
        split_ifs with h3 h4
        · rfl
        · rfl
        · exact ih h

/-- If two lists compare equal, they compare identically against any third
list on the right. -/
theorem charListCmp_eq_right : ∀ {s t u : List Char},
    charListCmp s t = Ordering.eq → charListCmp u s = charListCmp u t := by
  intro s
  induction s with
  | nil =>
    intro t u h
    cases t with
    | nil => rfl
    | cons b t2 => simp [charListCmp] at h
  | cons a s2 ih =>
    intro t u h
    cases t with
    | nil => simp [charListCmp] at h
    | cons b t2 =>
      simp only [charListCmp] at h
      split_ifs at h with h1 h2
      have hab : a.toNat = b.toNat := by omega
      cases u with
      | nil => rfl
      | cons c u2 =>
        simp only [charListCmp, hab]
        split_ifs with h3 h4
        · rfl
        · rfl
        · exact ih h

/-- Strict lexicographic comparison is transitive. -/
theorem charListCmp_lt_trans : ∀ {s t u : List Char},
    charListCmp s t = Ordering.lt → charListCmp t u = Ordering.lt →
      charListCmp s u = Ordering.lt := by
  intro s
  induction s with
  | nil =>
    intro t u h1 h2
    cases t with
    | nil => simp [charListCmp] at h1
    | cons b t2 =>
      cases u with
      | nil => simp [charListCmp] at h2
      | cons c u2 => simp [charListCmp]
  | cons a s2 ih =>
    intro t u h1 h2
    cases t with
    | nil => simp [charListCmp] at h1
    | cons b t2 =>
      cases u with
      | nil => simp [charListCmp] at h2
      | cons c u2 =>
        simp only [charListCmp] at h1 h2 ⊢
        split_ifs at h1 with hab hba
        · split_ifs at h2 with hbc hcb
          · rw [if_pos (by omega)]
          · rw [if_pos (by omega)]
        · split_ifs at h2 with hbc hcb
          · rw [if_pos (by omega)]
          · rw [if_neg (by omega), if_neg (by omega)]
            exact ih h1 h2

/-- Swapping the arguments swaps the comparison result. -/
theorem charListCmp_swap : ∀ (s t : List Char),
    charListCmp t s = (charListCmp s t).swap := by
  intro s
  induction s with
  | nil => intro t; cases t <;> rfl
  | cons a s2 ih =>
    intro t
    cases t with
    | nil => rfl
    | cons b t2 =>
      simp only [charListCmp]
      rcases Nat.lt_trichotomy a.toNat b.toNat with h | h | h
      · rw [if_neg (by omega), if_pos h, if_pos h]; rfl
      · rw [if_neg (by omega), if_neg (by omega), if_neg (by omega), if_neg (by omega)]
        exact ih t2
      · rw [if_pos h, if_neg (by omega), if_pos h]; rfl

/-- `isLE`-totality of the lexicographic comparison. -/
theorem charListCmp_isLE_total (s t : List Char) :
    ((charListCmp s t).isLE || (charListCmp t s).isLE) = true := by
  rw [charListCmp_swap s t]
  cases charListCmp s t <;> rfl

/-- `isLE`-transitivity of the lexicographic comparison. -/
theorem charListCmp_isLE_trans {x y z : List Char}
    (h1 : (charListCmp x y).isLE = true) (h2 : (charListCmp y z).isLE = true) :
    (charListCmp x z).isLE = true := by
  cases hxy : charListCmp x y with
  | lt =>
    cases hyz : charListCmp y z with
    | lt => rw [charListCmp_lt_trans hxy hyz]; rfl
    | eq => rw [← charListCmp_eq_right hyz, hxy]; rfl
    | gt => rw [hyz] at h2; exact absurd h2 (by decide)
  | eq => rw [charListCmp_eq_left hxy]; exact h2
  | gt => rw [hxy] at h1; exact absurd h1 (by decide)

/-- Rust `str::cmp` on the embedded strings. -/
def strCmp (a b : String) : Ordering :=
  charListCmp a.data b.data

/-- Rust `bool::cmp`: `false < true`. -/
def boolCmp : Bool → Bool → Ordering
  | false, false => .eq
  | false, true => .lt
  | true, false => .gt
  | true, true => .eq

/-- The comparator `show_databases` sorts with (mod.rs lines 193-196):
first the deleted flag, then, on equality, the name. -/
def dbCmp (a b : DatabaseSchema) : Ordering :=
  match boolCmp a.deleted b.deleted with
  | .eq => strCmp a.name b.name
  | ordering => ordering

/-- `show_databases` (mod.rs lines 187-224), as the list of rows of the
returned record batch: sort the catalog's databases with `dbCmp`
(`sort_unstable_by` is modelled by `mergeSort` under the same comparator),
then, when `include_deleted` is not set, retain only non-deleted entries.
The record batch lists the rows in this order, with the name column always
and the deleted column exactly when `include_deleted` is set. -/
def show_databases (c : Catalog) (include_deleted : Bool) : List DatabaseSchema :=
  let databases := (c.list_db_schema).mergeSort (fun a b => (dbCmp a b).isLE)
  if include_deleted then databases else databases.filter (fun db => !db.deleted)

/-- `isLE`-transitivity of the (deleted, name) comparator. -/
theorem dbCmp_isLE_trans (a b c : DatabaseSchema)
    (h1 : (dbCmp a b).isLE = true) (h2 : (dbCmp b c).isLE = true) :
    (dbCmp a c).isLE = true := by
  cases ha : a.deleted <;> cases hb : b.deleted <;> cases hc : c.deleted <;>
    simp_all [dbCmp, boolCmp, strCmp, Ordering.isLE] <;>
    exact charListCmp_isLE_trans h1 h2

/-- `isLE`-totality of the (deleted, name) comparator. -/
theorem dbCmp_isLE_total (a b : DatabaseSchema) :
    ((dbCmp a b).isLE || (dbCmp b a).isLE) = true := by
  cases ha : a.deleted <;> cases hb : b.deleted <;>
    simp_all [dbCmp, boolCmp, strCmp, Ordering.isLE] <;>
    simpa using charListCmp_isLE_total a.name.data b.name.data

/-- The comparator's `isLE` implies the claim-facing ordering: strictly
fewer-deleted first, or equal deleted flags and names ascending. -/
theorem dbCmp_isLE_imp (a b : DatabaseSchema) (h : (dbCmp a b).isLE = true) :
    (a.deleted = false ∧ b.deleted = true) ∨
      (a.deleted = b.deleted ∧ (strCmp a.name b.name).isLE = true) := by
  cases ha : a.deleted <;> cases hb : b.deleted <;>
    simp_all [dbCmp, boolCmp, Ordering.isLE]

/-- Claim C6: for every catalog, `show_databases false` returns no deleted
row, and `show_databases true` returns all databases — a permutation of the
catalog listing — sorted first by the deleted flag ascending, then by name
ascending. -/
theorem show_databases_filters_and_sorts (c : Catalog) :
    (show_databases c false).all (fun db => !db.deleted) = true ∧
    (show_databases c true).Perm c.dbs ∧
    List.Pairwise
      (fun a b => (a.deleted = false ∧ b.deleted = true) ∨
        (a.deleted = b.deleted ∧ (strCmp a.name b.name).isLE = true))
      (show_databases c true) := by
  refine ⟨?_, ?_, ?_⟩
  · simp only [show_databases, Catalog.list_db_schema, if_neg (by simp : ¬(false = true)),
      List.all_eq_true, List.mem_filter]
    intro db hdb
    exact hdb.2
  · simpa [show_databases, Catalog.list_db_schema] using
      List.mergeSort_perm c.dbs (fun a b => (dbCmp a b).isLE)
  · have hp := List.sorted_mergeSort
      (fun x y z h1 h2 => dbCmp_isLE_trans x y z h1 h2)
      (fun x y => dbCmp_isLE_total x y) c.dbs
    simpa [show_databases, Catalog.list_db_schema] using
      hp.imp (fun h => dbCmp_isLE_imp _ _ h)

/-- Rust's `str::split(sep)` on a character list: the maximal separator-free
segments, with a leading/trailing/adjacent separator contributing an empty
segment; the result is never empty (the empty string splits to one empty
segment). -/
def splitChar (sep : Char) : List Char → List (List Char)
  | [] => [[]]
  | c :: rest =>
    if c = sep then [] :: splitChar sep rest
    else
      match splitChar sep rest with
      | [] => [[c]]
      | s :: ss => (c :: s) :: ss

/-- `splitChar` never returns the empty list (so the first `next()` of the
Rust iterator always yields a segment). -/
theorem splitChar_ne_nil (sep : Char) : ∀ (s : List Char), splitChar sep s ≠ [] := by
  intro s
  induction s with
  | nil => simp [splitChar]
  | cons c rest ih =>
    simp only [splitChar]
    split_ifs with h
    · simp
    · cases hs : splitChar sep rest with
      | nil => simp
      | cons s2 ss => simp

/-- `AUTOGEN_RETENTION_POLICY` (mod.rs line 327). -/
def AUTOGEN_RETENTION_POLICY : String := "autogen"

/-- `split_database_name` (mod.rs lines 329-335): split the composite name
on '/'; the first segment (always present) is the database, the second
segment, when present, is the retention policy, defaulting to
`AUTOGEN_RETENTION_POLICY`. -/
def split_database_name (db_name : String) : String × String :=
  let split := splitChar '/' db_name.data
  (String.mk (split.headD []),
    String.mk ((split[1]?).getD AUTOGEN_RETENTION_POLICY.data))

/-- The first segment of a split is the prefix before the first separator. -/
theorem splitChar_headD (sep : Char) : ∀ (s : List Char),
    (splitChar sep s).headD [] = s.takeWhile (fun c => !(c == sep)) := by
  intro s
  induction s with
  | nil => rfl
  | cons c rest ih =>
    by_cases h : c = sep
    · subst h
      rw [List.takeWhile_cons_of_neg (by simp)]
      simp [splitChar]
    · rw [List.takeWhile_cons_of_pos (by simp [h])]
      simp only [splitChar, if_neg h]
      cases hs : splitChar sep rest with
      | nil => exact absurd hs (splitChar_ne_nil sep rest)
      | cons s2 ss =>
        rw [hs] at ih
        simp only [List.headD] at ih ⊢
        rw [ih]

/-- The second segment of a split is the text between the first separator
and the next one (or the end), and it exists exactly when a separator
occurs. -/
theorem splitChar_second (sep : Char) : ∀ (s : List Char),
    (splitChar sep s)[1]? =
      if sep ∈ s then
        some (((s.dropWhile (fun c => !(c == sep))).drop 1).takeWhile (fun c => !(c == sep)))
      else none := by
  intro s
  induction s with
  | nil => rfl
  | cons c rest ih =>
    by_cases h : c = sep
    · subst h
      rw [if_pos (List.mem_cons_self c rest), List.dropWhile_cons_of_neg (by simp)]
      cases hs : splitChar c rest with
      | nil => exact absurd hs (splitChar_ne_nil c rest)
      | cons s2 ss =>
        have hhead := splitChar_headD c rest
        rw [hs] at hhead
        simp only [List.headD] at hhead
        simp [splitChar, hs, hhead]
    · rw [List.dropWhile_cons_of_pos (by simp [h])]
      simp only [splitChar, if_neg h]
      have hmem : sep ∈ c :: rest ↔ sep ∈ rest := by
        constructor
        · intro hx
          rcases List.mem_cons.mp hx with hx | hx
          · exact absurd hx.symm h
          · exact hx
        · exact fun hx => List.mem_cons_of_mem c hx
      cases hs : splitChar sep rest with
      | nil => exact absurd hs (splitChar_ne_nil sep rest)
      | cons s2 ss =>
        rw [hs] at ih
        by_cases hm : sep ∈ rest
        · rw [if_pos (hmem.mpr hm)]
          rw [if_pos hm] at ih
          simpa using ih
        · rw [if_neg (fun hx => hm (hmem.mp hx))]
          rw [if_neg hm] at ih
          simpa using ih

/-- Claim C7 counterexample: on the name "a/b/c" the code returns
("a", "b") — the second '/'-separated segment, not everything after the
first '/' — while the claim prescribes ("a", "b/c"). -/
theorem split_database_name_cex :
    split_database_name "a/b/c" = ("a", "b") ∧
    (("a", "b") : String × String) ≠ ("a", "b/c") := by
  decide

/-- Claim C7 (amended): the database is the part of the composite name
before the first '/', and the policy name is the part after the first '/'
up to the next '/' (exclusive) — not everything after the first '/' —
defaulting to the literal "autogen" when no '/' is present; in particular
split("foo/bar") = ("foo","bar") and split("foo") = ("foo","autogen"). -/
theorem split_database_name_spec (db_name : String) :
    split_database_name db_name =
      (String.mk (db_name.data.takeWhile (fun c => !(c == '/'))),
        if '/' ∈ db_name.data then
          String.mk (((db_name.data.dropWhile (fun c => !(c == '/'))).drop 1).takeWhile
            (fun c => !(c == '/')))
        else AUTOGEN_RETENTION_POLICY) ∧
    split_database_name "foo/bar" = ("foo", "bar") ∧
    split_database_name "foo" = ("foo", "autogen") := by
  refine ⟨?_, by decide, by decide⟩
  simp only [split_database_name]
  rw [splitChar_headD, splitChar_second]
  by_cases hm : '/' ∈ db_name.data
  · rw [if_pos hm, if_pos hm]; rfl
  · rw [if_neg hm, if_neg hm]; rfl
